import Mathlib

/-
Verification of the session and streaming-delivery layer of the yt-dlp
gateway (src/main.py) against its natural-language specification.

The Python source is shallowly embedded below.  The external extraction
engine (the yt_dlp library) is out of scope per the specification; it is
modelled as explicit function parameters (`extract`, `stream`) that the
embedded code consumes, exactly where the source calls
`ydl.extract_info(url, download=False)` respectively iterates the engine's
byte stream.  Python dictionaries returned by the engine are modelled as
structures with `Option` fields (`dict.get` returns `none` when absent);
Python exceptions are modelled with `Except`.
-/

/-! ## Size formatter (src/main.py, `YouTubeDownloader.format_size`, lines 67-75) -/

/-- Result of the size formatter: either the literal placeholder (the source
returns the string "N/A"), or a rendered value.  The source renders with the
Python format spec `.2f`, i.e. the value rounded to two fractional digits;
we carry that rendered number exactly as `centi` hundredths together with the
unit suffix, instead of re-modelling decimal string printing. -/
inductive SizeFmt where
  | na : SizeFmt
  | fmt (centi : ℤ) (unit : String) : SizeFmt
deriving Repr, DecidableEq

/-- Rounding to the nearest integer with ties to even, which is what Python's
`.2f` formatting performs on the (here exactly represented) value `x`. -/
def roundHalfEven (x : ℚ) : ℤ :=
  if x - ⌊x⌋ < 1/2 then ⌊x⌋
  else if 1/2 < x - ⌊x⌋ then ⌊x⌋ + 1
  else if ⌊x⌋ % 2 = 0 then ⌊x⌋ else ⌊x⌋ + 1

/-- Model of `YouTubeDownloader.format_size` (lines 67-75).  `if not size_bytes` is
true in Python both for `None` and for `0`, so both map to `na`.  The loop
`for unit in ['B','KB','MB','GB']` with `size_bytes /= 1024.0` is unrolled;
all divisions are by powers of two and hence exact in the source's binary
floating point for realistic sizes, so exact rational arithmetic is a
faithful model.  `roundHalfEven (100 * v)` is the two-fractional-digit
rendering of `v`. -/
def YouTubeDownloader.format_size : Option ℕ → SizeFmt
  | none => SizeFmt.na
  | some s =>
    if s = 0 then SizeFmt.na
    else if (s : ℚ) < 1024 then
      SizeFmt.fmt (roundHalfEven (100 * (s : ℚ))) ("B")
    else if (s : ℚ) / 1024 < 1024 then
      SizeFmt.fmt (roundHalfEven (100 * ((s : ℚ) / 1024))) ("KB")
    else if (s : ℚ) / 1024 / 1024 < 1024 then
      SizeFmt.fmt (roundHalfEven (100 * ((s : ℚ) / 1024 / 1024))) ("MB")
    else if (s : ℚ) / 1024 / 1024 / 1024 < 1024 then
      SizeFmt.fmt (roundHalfEven (100 * ((s : ℚ) / 1024 / 1024 / 1024))) ("GB")
    else
      SizeFmt.fmt (roundHalfEven (100 * ((s : ℚ) / 1024 / 1024 / 1024 / 1024))) ("TB")

/-- The unit suffix attached after dividing `k` times by 1024. -/
def unitAt : ℕ → String
  | 0 => "B"
  | 1 => "KB"
  | 2 => "MB"
  | 3 => "GB"
  | _ => "TB"

/-! ## Channel registry (src/main.py, `ConnectionManager`, lines 111-125) -/

/-- The registry table `self.active_connections: dict[str, WebSocket]`,
modelled by its lookup function; live websocket objects are identified by
an abstract numeric handle. -/
def Registry : Type := String → Option ℕ

/-- The freshly constructed manager's empty table (line 113). -/
def emptyRegistry : Registry := fun _ => none

/-- Model of `ConnectionManager.connect` (lines 115-117): accepts the socket and then
performs the dictionary assignment `self.active_connections[client_id] =
websocket`, which inserts or overwrites unconditionally. -/
def ConnectionManager.connect (r : Registry) (client_id : String) (ws : ℕ) : Registry :=
  fun k => if k = client_id then some ws else r k

/-- Model of `ConnectionManager.disconnect` (lines 119-121): deletes the entry when
present, otherwise leaves the table alone. -/
def ConnectionManager.disconnect (r : Registry) (client_id : String) : Registry :=
  fun k => if k = client_id then none else r k

/-! ## WebSocket messages (the three `send_json` payloads of lines 160-184) -/

/-- The JSON messages the endpoint sends: the progress-typed messages of
lines 160-164 and 169-173, and the complete-typed message of lines 176-184
whose data carries `info['title']`, `info['duration_string']` and
`len(info['formats'])`. -/
inductive WsMessage where
  | progress (message : String) (percent : ℕ) : WsMessage
  | complete (message : String) (title : Option String) (duration : Option String)
      (formats : ℕ) : WsMessage
deriving Repr, DecidableEq

/-- Model of `ConnectionManager.send_progress` (lines 123-125): when the id is in the
table the message is sent on that socket (result `some (socket, message)`);
otherwise nothing at all happens (`none`), and no exception is raised. -/
def ConnectionManager.send_progress (r : Registry) (client_id : String)
    (message : WsMessage) : Option (ℕ × WsMessage) :=
  (r client_id).map fun ws => (ws, message)

/-! ## Operation sequences on the registry -/

/-- One operation on the registry, as performed by the websocket endpoint:
`connect` on session start, `disconnect` on `WebSocketDisconnect`. -/
inductive RegOp where
  | connect (id : String) (ws : ℕ) : RegOp
  | disconnect (id : String) : RegOp
deriving Repr, DecidableEq

/-- The client id an operation acts on. -/
def RegOp.target : RegOp → String
  | RegOp.connect i _ => i
  | RegOp.disconnect i => i

/-- Apply one operation to the table. -/
def applyOp (r : Registry) : RegOp → Registry
  | RegOp.connect i w => ConnectionManager.connect r i w
  | RegOp.disconnect i => ConnectionManager.disconnect r i

/-- Apply a sequence of operations, earliest first. -/
def applyOps (r : Registry) (ops : List RegOp) : Registry :=
  ops.foldl applyOp r

/-- The most recent operation of the sequence acting on `id` (sequences are
ordered earliest first, so later elements take precedence). -/
def lastOpOn : List RegOp → String → Option RegOp
  | [], _ => none
  | op :: rest, id =>
    match lastOpOn rest id with
    | some o => some o
    | none => if op.target = id then some op else none

/-- The most recent operation on `id` is a `connect` with no later
`disconnect`. -/
def recentlyConnected (ops : List RegOp) (id : String) : Bool :=
  match lastOpOn ops id with
  | some (RegOp.connect _ _) => true
  | _ => false

/-- Evaluating an operation sequence, the table maps `id` to the socket of
the most recent `connect` on `id`, to nothing after a most recent
`disconnect`, and to the initial entry when no operation touched `id`. -/
theorem applyOps_apply (ops : List RegOp) (r : Registry) (id : String) :
    applyOps r ops id =
      (match lastOpOn ops id with
        | some (RegOp.connect _ w) => some w
        | some (RegOp.disconnect _) => none
        | none => r id) := by
  induction ops generalizing r with
  | nil => rfl
  | cons op rest ih =>
    have hstep : applyOps r (op :: rest) = applyOps (applyOp r op) rest := rfl
    rw [hstep, ih]
    cases hrest : lastOpOn rest id with
    | some o =>
      cases o <;> simp [lastOpOn, hrest]
    | none =>
      simp only [lastOpOn, hrest]
      cases op with
      | connect i w =>
        by_cases hi : i = id
        · subst hi
          simp [applyOp, ConnectionManager.connect, RegOp.target]
        · have hid : ¬ id = i := fun h => hi h.symm
          simp [applyOp, ConnectionManager.connect, RegOp.target, hi, hid]
      | disconnect i =>
        by_cases hi : i = id
        · subst hi
          simp [applyOp, ConnectionManager.disconnect, RegOp.target]
        · have hid : ¬ id = i := fun h => hi h.symm
          simp [applyOp, ConnectionManager.disconnect, RegOp.target, hi, hid]

/-! ## Metadata service (src/main.py, `YouTubeDownloader.get_video_info`, lines 33-65) -/

/-- One entry of the engine's `info.get('formats', [])` list, restricted to
the keys the source reads.  `none` models an absent key or a `None` value
(`dict.get` does not distinguish them for the source's uses). -/
structure UpstreamFormat where
  format_id : Option String
  ext : Option String
  resolution : Option String
  filesize : Option ℕ
  format_note : Option String
deriving Repr, DecidableEq

/-- The engine's `extract_info` result dictionary, restricted to the keys the
source reads.  `ext` is the top-level container extension the download path
reads at lines 90 and 99. -/
structure UpstreamInfo where
  id : Option String
  title : Option String
  thumbnail : Option String
  duration : Option ℕ
  duration_string : Option String
  uploader : Option String
  formats : List UpstreamFormat
  webpage_url : Option String
  description : Option String
  view_count : Option ℕ
  like_count : Option ℕ
  ext : Option String
deriving Repr, DecidableEq

/-- Python truthiness of `f.get('ext')` (line 41): false for an absent key,
a `None` value, or an empty string. -/
def truthyStr : Option String → Bool
  | none => false
  | some s => if s = "" then false else true

/-- One format dictionary built at lines 42-49. -/
structure VariantDescriptor where
  format_id : Option String
  ext : String
  resolution : String
  filesize : Option ℕ
  filesize_fmt : SizeFmt
  note : String
deriving Repr, DecidableEq

/-- Lines 42-49: the fields appended for a format entry that passed the
`if f.get('ext')` guard (under the guard `f.ext` is `some` of a non-empty
string, so the `getD` default is never the value used). -/
def mkVariant (f : UpstreamFormat) : VariantDescriptor :=
  { format_id := f.format_id
    ext := f.ext.getD ("")
    resolution := f.resolution.getD ("N/A")
    filesize := f.filesize
    filesize_fmt := YouTubeDownloader.format_size f.filesize
    note := f.format_note.getD ("N/A") }

/-- HTTPException as raised by the source (status code and detail string). -/
structure HTTPError where
  status_code : ℕ
  detail : String
deriving Repr, DecidableEq

/-- The dictionary returned at lines 51-63 (all keys always present, values
possibly `None`). -/
structure VideoInfo where
  id : Option String
  title : Option String
  thumbnail : Option String
  duration : Option ℕ
  duration_string : Option String
  uploader : Option String
  formats : List VariantDescriptor
  webpage_url : Option String
  description : Option String
  view_count : Option ℕ
  like_count : Option ℕ
deriving Repr, DecidableEq

/-- The pure body of `get_video_info` lines 39-63: the loop over
`info.get('formats', [])` keeps exactly the entries whose `ext` is truthy
and maps each to its descriptor dictionary. -/
def videoInfoOf (info : UpstreamInfo) : VideoInfo :=
  { id := info.id
    title := info.title
    thumbnail := info.thumbnail
    duration := info.duration
    duration_string := info.duration_string
    uploader := info.uploader
    formats := (info.formats.filter fun f => truthyStr f.ext).map mkVariant
    webpage_url := info.webpage_url
    description := info.description
    view_count := info.view_count
    like_count := info.like_count }

/-- Model of `YouTubeDownloader.get_video_info` (lines 33-65).  `extract` is the
engine call `ydl.extract_info(url, download=False)`; any engine exception is
caught at line 64 and re-raised as `HTTPException(400, "Error getting video
info: " + str(e))`. -/
def YouTubeDownloader.get_video_info (extract : String → Except String UpstreamInfo)
    (url : String) : Except HTTPError VideoInfo :=
  match extract url with
  | Except.error e => Except.error ⟨400, "Error getting video info: " ++ e⟩
  | Except.ok info => Except.ok (videoInfoOf info)

/-! ## Streaming delivery pipeline (src/main.py, `YouTubeDownloader.download_video`, lines 77-106) -/

/-- One chunk of the engine's byte stream, a finite byte string. -/
def Chunk : Type := List ℕ
deriving instance Repr, DecidableEq for Chunk

/-- The generator body of lines 92-95: `for chunk in ydl_instance.stream(url):
yield chunk` re-emits each produced chunk, in order, one at a time. -/
def relayChunks (handle : List Chunk) : List Chunk :=
  handle.foldr (fun c acc => c :: acc) []

/-- Model of `generate` (lines 92-95): opens the engine stream for the same url and
format options and relays its chunks. -/
def generate (stream : String → String → List Chunk) (url fmt : String) : List Chunk :=
  relayChunks (stream url fmt)

/-- The `StreamingResponse` built at lines 97-104: media type, the two
headers, and the chunk sequence the body generator yields. -/
structure StreamingResponseModel where
  media_type : String
  content_disposition : String
  x_video_title : String
  body : List Chunk
deriving Repr, DecidableEq

/-- Line 80: `'format': format_id or 'best'` — Python `or` falls through on
falsy values, i.e. on `None` and on the empty string. -/
def formatSelector : Option String → String
  | none => "best"
  | some s => if s = "" then ("best") else s

/-- Model of `YouTubeDownloader.download_video` (lines 77-106).  `extract` is the
engine's `extract_info` for the chosen format options, `stream` the engine's
byte stream for the same.  On an engine failure the `except` at line 105
raises `HTTPException(400, "Download error: " + str(e))` and no response
object is ever constructed.  Lines 90 and 99-102 index `info['title']` and
`info['ext']` directly, so an engine dictionary missing either key raises a
`KeyError`, caught by the same handler. -/
def YouTubeDownloader.download_video
    (extract : String → String → Except String UpstreamInfo)
    (stream : String → String → List Chunk)
    (url : String) (format_id : Option String) :
    Except HTTPError StreamingResponseModel :=
  match extract url (formatSelector format_id) with
  | Except.error e => Except.error ⟨400, "Download error: " ++ e⟩
  | Except.ok info =>
    match info.title, info.ext with
    | some title, some ext =>
      Except.ok
        { media_type := if info.ext = some ("mp4") then ("video/mp4")
            else ("application/octet-stream")
          content_disposition :=
            "attachment; filename=\"" ++ (title ++ "." ++ ext) ++ "\""
          x_video_title := info.title.getD ("video")
          body := generate stream url (formatSelector format_id) }
    | _, _ => Except.error ⟨400, "Download error: KeyError"⟩

/-! ## WebSocket endpoint (src/main.py, `websocket_endpoint`, lines 148-188) -/

/-- One observable step of the endpoint's handling of a download message:
either a `send_progress` call with its payload, or the invocation of
`downloader.get_video_info(url)` at line 175. -/
inductive WsAction where
  | send (m : WsMessage) : WsAction
  | extractAttempt (url : String) : WsAction
deriving Repr, DecidableEq

/-- The message of lines 160-164. -/
def startMessage : WsMessage := WsMessage.progress ("Starting download...") 0

/-- The ten messages of the loop at lines 167-173 (`i` from 1 to 10,
percent `i*10`). -/
def tickMessages : List WsMessage :=
  (List.range 10).map fun i =>
    WsMessage.progress ("Downloading... " ++ toString ((i + 1) * 10) ++ "%") ((i + 1) * 10)

/-- Everything the endpoint does for a download message before the
extraction result is available: the eleven progress sends of lines 160-173,
then the `get_video_info` call of line 175. -/
def preActions (url : String) : List WsAction :=
  (startMessage :: tickMessages).map WsAction.send ++ [WsAction.extractAttempt url]

/-- Lines 154-184: the endpoint's handling of one inbound
`{type: "download"}` message, as the ordered list of its observable actions
together with the exception escaping the handler, if any.  On extraction
failure the `HTTPException` from `get_video_info` propagates (the endpoint
only catches `WebSocketDisconnect`), so no further message is sent; on
success the complete-typed message of lines 176-184 is sent. -/
def websocketHandleDownload (extract : String → Except String UpstreamInfo)
    (url : String) : List WsAction × Option HTTPError :=
  match YouTubeDownloader.get_video_info extract url with
  | Except.error e => (preActions url, some e)
  | Except.ok v =>
    (preActions url ++
      [WsAction.send (WsMessage.complete ("Download complete!") v.title
        v.duration_string v.formats.length)], none)

/-- The messages actually handed to `send_progress`, in order. -/
def sentMessages (tr : List WsAction) : List WsMessage :=
  tr.filterMap fun a =>
    match a with
    | WsAction.send m => some m
    | WsAction.extractAttempt _ => none

/-- The percents carried by the progress-typed messages of a message list. -/
def progressPercents (ms : List WsMessage) : List ℕ :=
  ms.filterMap fun m =>
    match m with
    | WsMessage.progress _ p => some p
    | WsMessage.complete _ _ _ _ => none

/-- The message playing the `Started` role of the Progress Protocol: the
0-percent progress message of lines 160-164 (all later progress messages
carry percent 10 or more). -/
def isStartedMsg : WsMessage → Bool
  | WsMessage.progress _ 0 => true
  | _ => false

/-- A terminal event of the Progress Protocol.  The complete-typed message is
the only terminal shape the source ever sends; no failed-typed message
exists anywhere in the source. -/
def isTerminalMsg : WsMessage → Bool
  | WsMessage.complete _ _ _ _ => true
  | _ => false

/-! ## Claims about the Channel Registry -/

/-- C1 counterexample: after `connect("c")` registers socket 1, a second
`connect("c")` with socket 2 is not rejected — the dictionary assignment of
line 117 replaces the registration, so the table afterwards maps `"c"` to
the new socket and no longer to the old one (last-write-wins). -/
theorem c1_counterexample :
    ConnectionManager.connect emptyRegistry ("c") 1 ("c") = some 1 ∧
    ConnectionManager.connect (ConnectionManager.connect emptyRegistry ("c") 1) ("c") 2 ("c")
      = some 2 ∧
    ConnectionManager.connect (ConnectionManager.connect emptyRegistry ("c") 1) ("c") 2 ("c")
      ≠ some 1 := by
  refine ⟨?_, ?_, ?_⟩ <;> simp [ConnectionManager.connect, emptyRegistry]

/-- C1 amended: a second `connect` with an already-registered id is accepted
(`connect` has no failure path) and replaces the existing registration with
the new channel — last-write-wins is exactly what lines 115-117 implement. -/
theorem c1_connect_last_write_wins (r : Registry) (id : String) (w1 w2 : ℕ) :
    ConnectionManager.connect (ConnectionManager.connect r id w1) id w2 id = some w2 := by
  simp [ConnectionManager.connect]

/-- C2: for every sequence of connect/disconnect operations starting from the
empty table, `send_progress(id, e)` delivers `e` to the socket registered by
the most recent `connect` on `id` exactly when no later `disconnect` on `id`
occurred; otherwise it is a silent no-op (`none`), and in either case it is a
total function that raises nothing to its caller. -/
theorem c2_sendTo_iff_recently_connected (ops : List RegOp) (id : String) (m : WsMessage) :
    (recentlyConnected ops id = true →
      ∃ ws, applyOps emptyRegistry ops id = some ws ∧
        ConnectionManager.send_progress (applyOps emptyRegistry ops) id m = some (ws, m)) ∧
    (recentlyConnected ops id = false →
      ConnectionManager.send_progress (applyOps emptyRegistry ops) id m = none) := by
  have hap := applyOps_apply ops emptyRegistry id
  constructor
  · intro h
    unfold recentlyConnected at h
    cases hl : lastOpOn ops id with
    | none => rw [hl] at h; simp at h
    | some o =>
      cases o with
      | connect i w =>
        rw [hl] at hap
        exact ⟨w, hap, by unfold ConnectionManager.send_progress; rw [hap]; rfl⟩
      | disconnect i => rw [hl] at h; simp at h
  · intro h
    unfold recentlyConnected at h
    unfold ConnectionManager.send_progress
    rw [hap]
    cases hl : lastOpOn ops id with
    | none => simp [emptyRegistry]
    | some o =>
      cases o with
      | connect i w => rw [hl] at h; simp at h
      | disconnect i => rfl

/-! ## Helper lemmas and a concrete engine fixture for witnesses -/

/-- The map `sentMessages` distributes over concatenation of action lists. -/
theorem sentMessages_append (a b : List WsAction) :
    sentMessages (a ++ b) = sentMessages a ++ sentMessages b :=
  List.filterMap_append a b _

/-- The relay loop of lines 94-95 re-emits exactly the handle's chunks. -/
theorem relayChunks_eq (l : List Chunk) : relayChunks l = l := by
  induction l with
  | nil => rfl
  | cons c cs ih =>
    show c :: relayChunks cs = c :: cs
    rw [ih]

/-- A concrete engine result used by witnesses: three upstream formats, of
which only the first has a truthy `ext`. -/
def demoUpstream : UpstreamInfo :=
  { id := some ("vid1")
    title := some ("Demo")
    thumbnail := none
    duration := some 60
    duration_string := some ("1:00")
    uploader := none
    formats :=
      [{ format_id := some ("22"), ext := some ("mp4"), resolution := some ("720p"),
         filesize := some 1048576, format_note := some ("hd") },
       { format_id := some ("23"), ext := none, resolution := none,
         filesize := none, format_note := none },
       { format_id := some ("24"), ext := some (""), resolution := none,
         filesize := none, format_note := none }]
    webpage_url := none
    description := none
    view_count := some 5
    like_count := none
    ext := some ("mp4") }

/-! ## Claims about the tracked-retrieval event sequence -/

/-- C2 witness at the sequence connect a, connect b, disconnect a,
connect a: the most recent operation on a is a connect, and the send
delivers the message to socket 9. -/
theorem c2_witness :
    ∃ ws,
      applyOps emptyRegistry
        [RegOp.connect ("a") 5, RegOp.connect ("b") 7, RegOp.disconnect ("a"),
          RegOp.connect ("a") 9] ("a") = some ws ∧
      ConnectionManager.send_progress
        (applyOps emptyRegistry
          [RegOp.connect ("a") 5, RegOp.connect ("b") 7, RegOp.disconnect ("a"),
            RegOp.connect ("a") 9]) ("a") (WsMessage.progress ("e") 55) =
        some (ws, WsMessage.progress ("e") 55) :=
  (c2_sendTo_iff_recently_connected
    [RegOp.connect ("a") 5, RegOp.connect ("b") 7, RegOp.disconnect ("a"),
      RegOp.connect ("a") 9] ("a") (WsMessage.progress ("e") 55)).1 (by decide)

/-- C3: for a download message whose extraction succeeds with a non-empty
title, the channel receives exactly the run startMessage, ten ticks, one
complete message: the head is the single 0-percent (Started) message, the
progress percents are the monotone run 0,10,...,100 all bounded by 100,
exactly one terminal message is ever sent, it is sent last, it carries the
metadata's title, and its variant count equals the metadata's formats
count. -/
theorem c3_tracked_retrieval_event_grammar
    (extract : String → Except String UpstreamInfo) (url : String)
    (uinfo : UpstreamInfo) (t : String)
    (hok : extract url = Except.ok uinfo)
    (ht : uinfo.title = some t) (hne : t ≠ "") :
    sentMessages (websocketHandleDownload extract url).1 =
      (startMessage :: tickMessages) ++
        [WsMessage.complete ("Download complete!") (some t) uinfo.duration_string
          (videoInfoOf uinfo).formats.length] ∧
    (sentMessages (websocketHandleDownload extract url).1).head? = some startMessage ∧
    ((sentMessages (websocketHandleDownload extract url).1).filter isStartedMsg).length = 1 ∧
    progressPercents (sentMessages (websocketHandleDownload extract url).1) =
      [0, 10, 20, 30, 40, 50, 60, 70, 80, 90, 100] ∧
    List.Chain' (· ≤ ·)
      (progressPercents (sentMessages (websocketHandleDownload extract url).1)) ∧
    (∀ p ∈ progressPercents (sentMessages (websocketHandleDownload extract url).1),
      p ≤ 100) ∧
    ((sentMessages (websocketHandleDownload extract url).1).filter isTerminalMsg).length
      = 1 ∧
    (sentMessages (websocketHandleDownload extract url).1).getLast? =
      some (WsMessage.complete ("Download complete!") (some t) uinfo.duration_string
        (videoInfoOf uinfo).formats.length) ∧
    t ≠ "" ∧
    (websocketHandleDownload extract url).2 = none := by
  have hv : YouTubeDownloader.get_video_info extract url = Except.ok (videoInfoOf uinfo) := by
    unfold YouTubeDownloader.get_video_info
    rw [hok]
  have htrace0 : websocketHandleDownload extract url =
      (preActions url ++
        [WsAction.send (WsMessage.complete ("Download complete!") uinfo.title
          uinfo.duration_string (videoInfoOf uinfo).formats.length)], none) := by
    unfold websocketHandleDownload
    rw [hv]
    rfl
  have htrace : websocketHandleDownload extract url =
      (preActions url ++
        [WsAction.send (WsMessage.complete ("Download complete!") (some t)
          uinfo.duration_string (videoInfoOf uinfo).formats.length)], none) := by
    rw [htrace0, ht]
  rw [htrace]
  have hsm : sentMessages
      (preActions url ++
        [WsAction.send (WsMessage.complete ("Download complete!") (some t)
          uinfo.duration_string (videoInfoOf uinfo).formats.length)]) =
      (startMessage :: tickMessages) ++
        [WsMessage.complete ("Download complete!") (some t) uinfo.duration_string
          (videoInfoOf uinfo).formats.length] := by
    rw [sentMessages_append]
    rfl
  rw [hsm]
  have hpp : progressPercents
      ((startMessage :: tickMessages) ++
        [WsMessage.complete ("Download complete!") (some t) uinfo.duration_string
          (videoInfoOf uinfo).formats.length]) =
      [0, 10, 20, 30, 40, 50, 60, 70, 80, 90, 100] := rfl
  refine ⟨rfl, rfl, rfl, hpp, ?_, ?_, rfl, ?_, hne, rfl⟩
  · rw [hpp]
    norm_num [List.chain'_cons, List.chain'_singleton]
  · rw [hpp]
    decide
  · rfl

/-- C4 counterexample: with an extraction that fails (input url u, engine
message boom), the channel receives the eleven progress messages and then
nothing at all — no terminal message of any shape (in particular no failed
message, a shape the source never sends anywhere) — while the
HTTPException escapes the endpoint unhandled. -/
theorem c4_counterexample :
    sentMessages (websocketHandleDownload (fun _ => Except.error ("boom")) ("u")).1 =
      [WsMessage.progress ("Starting download...") 0,
       WsMessage.progress ("Downloading... 10%") 10,
       WsMessage.progress ("Downloading... 20%") 20,
       WsMessage.progress ("Downloading... 30%") 30,
       WsMessage.progress ("Downloading... 40%") 40,
       WsMessage.progress ("Downloading... 50%") 50,
       WsMessage.progress ("Downloading... 60%") 60,
       WsMessage.progress ("Downloading... 70%") 70,
       WsMessage.progress ("Downloading... 80%") 80,
       WsMessage.progress ("Downloading... 90%") 90,
       WsMessage.progress ("Downloading... 100%") 100] ∧
    (sentMessages
        (websocketHandleDownload (fun _ => Except.error ("boom")) ("u")).1).filter
      isTerminalMsg = [] ∧
    (websocketHandleDownload (fun _ => Except.error ("boom")) ("u")).2 =
      some ⟨400, "Error getting video info: boom"⟩ := by
  refine ⟨?_, ?_, ?_⟩ <;> rfl

/-- C4 amended: when extraction fails after the retrieval has started, no
terminal event (and in particular no failed event) is ever emitted to the
channel; the channel has received only the Started and Progress messages and
the HTTPException propagates out of the endpoint unhandled. -/
theorem c4_failure_emits_no_terminal
    (extract : String → Except String UpstreamInfo) (url e : String)
    (h : extract url = Except.error e) :
    sentMessages (websocketHandleDownload extract url).1 = startMessage :: tickMessages ∧
    (sentMessages (websocketHandleDownload extract url).1).filter isTerminalMsg = [] ∧
    (websocketHandleDownload extract url).2 =
      some ⟨400, "Error getting video info: " ++ e⟩ := by
  have hv : YouTubeDownloader.get_video_info extract url =
      Except.error ⟨400, "Error getting video info: " ++ e⟩ := by
    unfold YouTubeDownloader.get_video_info
    rw [h]
  have htrace : websocketHandleDownload extract url =
      (preActions url, some ⟨400, "Error getting video info: " ++ e⟩) := by
    unfold websocketHandleDownload
    rw [hv]
  rw [htrace]
  exact ⟨rfl, rfl, rfl⟩

/-- C4 witness: the amended theorem applied to a concrete failing engine. -/
theorem c4_witness :
    sentMessages (websocketHandleDownload (fun _ => Except.error ("oops")) ("v")).1 =
      startMessage :: tickMessages ∧
    (sentMessages
        (websocketHandleDownload (fun _ => Except.error ("oops")) ("v")).1).filter
      isTerminalMsg = [] ∧
    (websocketHandleDownload (fun _ => Except.error ("oops")) ("v")).2 =
      some ⟨400, "Error getting video info: " ++ "oops"⟩ :=
  c4_failure_emits_no_terminal (fun _ => Except.error ("oops")) ("v") ("oops") rfl

/-- C10: for every engine behaviour, the first eleven actions of the handler
are exactly the eleven progress sends (percents 0,10,...,100) and the
twelfth action is the extraction attempt; when the extraction fails the
trace is exactly those twelve actions, so a channel requesting an invalid
locator still receives all eleven progress messages, 100 percent included,
before the failure. -/
theorem c10_progress_before_extraction
    (extract : String → Except String UpstreamInfo) (url : String) :
    (websocketHandleDownload extract url).1.take 11 =
      (startMessage :: tickMessages).map WsAction.send ∧
    ((websocketHandleDownload extract url).1.drop 11).head? =
      some (WsAction.extractAttempt url) ∧
    progressPercents (startMessage :: tickMessages) =
      [0, 10, 20, 30, 40, 50, 60, 70, 80, 90, 100] ∧
    (∀ e, extract url = Except.error e →
      (websocketHandleDownload extract url).1 =
        (startMessage :: tickMessages).map WsAction.send ++
          [WsAction.extractAttempt url]) := by
  cases hE : extract url with
  | error e0 =>
    have htrace : websocketHandleDownload extract url =
        (preActions url, some ⟨400, "Error getting video info: " ++ e0⟩) := by
      unfold websocketHandleDownload YouTubeDownloader.get_video_info
      rw [hE]
    rw [htrace]
    exact ⟨rfl, rfl, rfl, fun _ _ => rfl⟩
  | ok v0 =>
    have htrace : websocketHandleDownload extract url =
        (preActions url ++
          [WsAction.send (WsMessage.complete ("Download complete!") (videoInfoOf v0).title
            (videoInfoOf v0).duration_string (videoInfoOf v0).formats.length)], none) := by
      unfold websocketHandleDownload YouTubeDownloader.get_video_info
      rw [hE]
    rw [htrace]
    exact ⟨rfl, rfl, rfl, fun e he => Except.noConfusion he⟩

/-- C3 witness: the grammar theorem applied to the concrete engine result
`demoUpstream` (title Demo, one truthy variant out of three). -/
theorem c3_witness :
    sentMessages
        (websocketHandleDownload (fun _ => Except.ok demoUpstream) ("u")).1 =
      (startMessage :: tickMessages) ++
        [WsMessage.complete ("Download complete!") (some ("Demo"))
          demoUpstream.duration_string (videoInfoOf demoUpstream).formats.length] ∧
    (sentMessages
        (websocketHandleDownload (fun _ => Except.ok demoUpstream) ("u")).1).head? =
      some startMessage ∧
    ((sentMessages
        (websocketHandleDownload (fun _ => Except.ok demoUpstream) ("u")).1).filter
      isStartedMsg).length = 1 ∧
    progressPercents
        (sentMessages (websocketHandleDownload (fun _ => Except.ok demoUpstream) ("u")).1) =
      [0, 10, 20, 30, 40, 50, 60, 70, 80, 90, 100] ∧
    List.Chain' (· ≤ ·)
      (progressPercents
        (sentMessages
          (websocketHandleDownload (fun _ => Except.ok demoUpstream) ("u")).1)) ∧
    (∀ p ∈ progressPercents
        (sentMessages (websocketHandleDownload (fun _ => Except.ok demoUpstream) ("u")).1),
      p ≤ 100) ∧
    ((sentMessages
        (websocketHandleDownload (fun _ => Except.ok demoUpstream) ("u")).1).filter
      isTerminalMsg).length = 1 ∧
    (sentMessages
        (websocketHandleDownload (fun _ => Except.ok demoUpstream) ("u")).1).getLast? =
      some (WsMessage.complete ("Download complete!") (some ("Demo"))
        demoUpstream.duration_string (videoInfoOf demoUpstream).formats.length) ∧
    ("Demo" : String) ≠ "" ∧
    (websocketHandleDownload (fun _ => Except.ok demoUpstream) ("u")).2 = none :=
  c3_tracked_retrieval_event_grammar (fun _ => Except.ok demoUpstream) ("u")
    demoUpstream ("Demo") rfl rfl (by decide)

/-- C10 witness: the theorem applied to a concrete failing engine (an
invalid locator): the channel receives all eleven progress messages before
the extraction attempt and nothing else. -/
theorem c10_witness :
    (websocketHandleDownload (fun _ => Except.error ("nope")) ("w")).1.take 11 =
      (startMessage :: tickMessages).map WsAction.send ∧
    ((websocketHandleDownload (fun _ => Except.error ("nope")) ("w")).1.drop 11).head? =
      some (WsAction.extractAttempt ("w")) ∧
    progressPercents (startMessage :: tickMessages) =
      [0, 10, 20, 30, 40, 50, 60, 70, 80, 90, 100] ∧
    (∀ e, (fun _ => Except.error ("nope") :
          String → Except String UpstreamInfo) ("w") = Except.error e →
      (websocketHandleDownload (fun _ => Except.error ("nope")) ("w")).1 =
        (startMessage :: tickMessages).map WsAction.send ++
          [WsAction.extractAttempt ("w")]) :=
  c10_progress_before_extraction (fun _ => Except.error ("nope")) ("w")

/-! ## Claims about the metadata service and the delivery pipeline -/

/-- C9: for every successful metadata request, every variant of the returned
dictionary has a non-empty container extension; upstream format entries with
an absent or falsy `ext` are silently dropped, so the returned variant count
is the count of truthy-ext upstream entries and never exceeds the upstream
count. -/
theorem c9_variant_ext_nonempty
    (extract : String → Except String UpstreamInfo) (url : String)
    (uinfo : UpstreamInfo) (h : extract url = Except.ok uinfo) :
    ∃ v, YouTubeDownloader.get_video_info extract url = Except.ok v ∧
      (∀ d ∈ v.formats, d.ext ≠ "") ∧
      v.formats.length = (uinfo.formats.filter fun f => truthyStr f.ext).length ∧
      v.formats.length ≤ uinfo.formats.length := by
  refine ⟨videoInfoOf uinfo, ?_, ?_, ?_, ?_⟩
  · unfold YouTubeDownloader.get_video_info
    rw [h]
  · intro d hd
    have hd2 : d ∈ (uinfo.formats.filter fun f => truthyStr f.ext).map mkVariant := hd
    rw [List.mem_map] at hd2
    obtain ⟨f, hf, hfd⟩ := hd2
    have hft : truthyStr f.ext = true := (List.mem_filter.mp hf).2
    cases hx : f.ext with
    | none =>
      rw [hx] at hft
      exact absurd hft (by simp [truthyStr])
    | some s =>
      rw [hx] at hft
      by_cases hs : s = ""
      · rw [hs] at hft
        simp [truthyStr] at hft
      · rw [← hfd]
        show (mkVariant f).ext ≠ ""
        unfold mkVariant
        rw [hx]
        simpa using hs
  · show ((uinfo.formats.filter fun f => truthyStr f.ext).map mkVariant).length = _
    rw [List.length_map]
  · show ((uinfo.formats.filter fun f => truthyStr f.ext).map mkVariant).length ≤ _
    rw [List.length_map]
    exact List.length_filter_le _ _

/-- C9 witness: on `demoUpstream`, whose three upstream formats have exts
mp4, absent and empty, the returned metadata keeps exactly the one variant
with the non-empty extension. -/
theorem c9_witness :
    ∃ v, YouTubeDownloader.get_video_info (fun _ => Except.ok demoUpstream) ("i") =
        Except.ok v ∧
      (∀ d ∈ v.formats, d.ext ≠ "") ∧
      v.formats.length =
        (demoUpstream.formats.filter fun f => truthyStr f.ext).length ∧
      v.formats.length ≤ demoUpstream.formats.length :=
  c9_variant_ext_nonempty (fun _ => Except.ok demoUpstream) ("i") demoUpstream rfl

/-- C5: when the engine's resolution fails during delivery, the call fails
with the 400 HTTPException carrying the upstream reason (line 106) and no
response object — hence no header and no body byte — is ever produced. -/
theorem c5_prestream_failure_short_circuits
    (extract : String → String → Except String UpstreamInfo)
    (stream : String → String → List Chunk)
    (url : String) (format_id : Option String) (e : String)
    (h : extract url (formatSelector format_id) = Except.error e) :
    YouTubeDownloader.download_video extract stream url format_id =
      Except.error ⟨400, "Download error: " ++ e⟩ ∧
    ∀ resp, YouTubeDownloader.download_video extract stream url format_id ≠
      Except.ok resp := by
  have hmain : YouTubeDownloader.download_video extract stream url format_id =
      Except.error ⟨400, "Download error: " ++ e⟩ := by
    unfold YouTubeDownloader.download_video
    rw [h]
  refine ⟨hmain, fun resp hc => ?_⟩
  rw [hmain] at hc
  cases hc

/-- C5 witness: a concrete failing engine short-circuits delivery. -/
theorem c5_witness :
    YouTubeDownloader.download_video (fun _ _ => Except.error ("bad url"))
        (fun _ _ => []) ("x") none =
      Except.error ⟨400, "Download error: " ++ "bad url"⟩ ∧
    ∀ resp, YouTubeDownloader.download_video (fun _ _ => Except.error ("bad url"))
        (fun _ _ => []) ("x") none ≠ Except.ok resp :=
  c5_prestream_failure_short_circuits (fun _ _ => Except.error ("bad url"))
    (fun _ _ => []) ("x") none ("bad url") rfl

/-- Reduction of `download_video` on a successful engine resolution: the
result is determined by the presence of the `title` and `ext` keys of the
returned dictionary. -/
theorem download_video_ok
    (extract : String → String → Except String UpstreamInfo)
    (stream : String → String → List Chunk)
    (url : String) (format_id : Option String) (uinfo : UpstreamInfo)
    (h : extract url (formatSelector format_id) = Except.ok uinfo) :
    YouTubeDownloader.download_video extract stream url format_id =
      (match uinfo.title, uinfo.ext with
      | some title, some ext2 =>
        Except.ok
          { media_type := if uinfo.ext = some ("mp4") then ("video/mp4")
              else ("application/octet-stream")
            content_disposition :=
              "attachment; filename=\"" ++ (title ++ "." ++ ext2) ++ "\""
            x_video_title := uinfo.title.getD ("video")
            body := generate stream url (formatSelector format_id) }
      | _, _ => Except.error ⟨400, "Download error: KeyError"⟩) := by
  unfold YouTubeDownloader.download_video
  rw [h]

/-- C6: for every successful delivery, the response framing is derived
deterministically from the resolved metadata: the disposition header is
attachment with filename title.ext, the content type is video/mp4 exactly
when the extension is mp4 and the generic octet-stream type otherwise, and
the auxiliary header carries the title. -/
theorem c6_response_framing
    (extract : String → String → Except String UpstreamInfo)
    (stream : String → String → List Chunk)
    (url : String) (format_id : Option String) (uinfo : UpstreamInfo) (t ext : String)
    (h : extract url (formatSelector format_id) = Except.ok uinfo)
    (ht : uinfo.title = some t) (hx : uinfo.ext = some ext) :
    ∃ resp, YouTubeDownloader.download_video extract stream url format_id =
        Except.ok resp ∧
      resp.content_disposition = "attachment; filename=\"" ++ (t ++ "." ++ ext) ++ "\"" ∧
      resp.media_type =
        (if ext = "mp4" then ("video/mp4") else ("application/octet-stream")) ∧
      resp.x_video_title = t := by
  rw [download_video_ok extract stream url format_id uinfo h, ht, hx]
  refine ⟨_, rfl, rfl, ?_, rfl⟩
  by_cases hm : ext = "mp4" <;> simp [hm]

/-- C6 witness: delivery of the demo metadata (title Demo, ext mp4) with a
chosen variant 22 carries the mp4 content type, the save-as disposition for
Demo.mp4 and the title header. -/
theorem c6_witness :
    ∃ resp, YouTubeDownloader.download_video (fun _ _ => Except.ok demoUpstream)
        (fun _ _ => [[1, 2, 3], [4]]) ("g") (some ("22")) = Except.ok resp ∧
      resp.content_disposition =
        "attachment; filename=\"" ++ ("Demo" ++ "." ++ "mp4") ++ "\"" ∧
      resp.media_type =
        (if ("mp4" : String) = "mp4" then ("video/mp4") else ("application/octet-stream")) ∧
      resp.x_video_title = "Demo" :=
  c6_response_framing (fun _ _ => Except.ok demoUpstream)
    (fun _ _ => [[1, 2, 3], [4]]) ("g") (some ("22")) demoUpstream ("Demo") ("mp4")
    rfl rfl rfl

/-- C8: for every successful delivery, the response body is exactly the
engine handle's chunk sequence, unchanged and in the order produced — the
generator of lines 92-95 yields each chunk one at a time and accumulates
nothing. -/
theorem c8_body_relays_stream_chunks
    (extract : String → String → Except String UpstreamInfo)
    (stream : String → String → List Chunk)
    (url : String) (format_id : Option String) (uinfo : UpstreamInfo) (t ext : String)
    (h : extract url (formatSelector format_id) = Except.ok uinfo)
    (ht : uinfo.title = some t) (hx : uinfo.ext = some ext) :
    ∃ resp, YouTubeDownloader.download_video extract stream url format_id =
        Except.ok resp ∧
      resp.body = stream url (formatSelector format_id) := by
  rw [download_video_ok extract stream url format_id uinfo h, ht, hx]
  exact ⟨_, rfl, relayChunks_eq _⟩

/-- C8 witness: with a concrete two-chunk engine stream, the delivered body
is exactly those two chunks in order. -/
theorem c8_witness :
    ∃ resp, YouTubeDownloader.download_video (fun _ _ => Except.ok demoUpstream)
        (fun _ _ => [[7], [8, 9]]) ("g") none = Except.ok resp ∧
      resp.body = (fun _ _ => [[7], [8, 9]] :
        String → String → List Chunk) ("g") (formatSelector none) :=
  c8_body_relays_stream_chunks (fun _ _ => Except.ok demoUpstream)
    (fun _ _ => [[7], [8, 9]]) ("g") none demoUpstream ("Demo") ("mp4") rfl rfl rfl

/-! ## Claims about the size formatter -/

/-- Rounding to the nearest integer moves the value by at most one half. -/
theorem roundHalfEven_abs_le (x : ℚ) : |(roundHalfEven x : ℚ) - x| ≤ 1/2 := by
  have h0 : (⌊x⌋ : ℚ) ≤ x := Int.floor_le x
  have h1 : x < ⌊x⌋ + 1 := Int.lt_floor_add_one x
  unfold roundHalfEven
  split_ifs with hA hB hC
  · rw [abs_le]
    constructor <;> push_cast <;> linarith
  · rw [abs_le]
    constructor <;> push_cast <;> linarith
  · have hEq : x - ⌊x⌋ = 1/2 := le_antisymm (not_lt.mp hB) (not_lt.mp hA)
    rw [abs_le]
    constructor <;> push_cast <;> linarith
  · have hEq : x - ⌊x⌋ = 1/2 := le_antisymm (not_lt.mp hB) (not_lt.mp hA)
    rw [abs_le]
    constructor <;> push_cast <;> linarith

/-- The two-fractional-digit rendering of `y / 100` is within 1/100 of it. -/
theorem roundHalfEven_div_bound (y : ℚ) :
    |(roundHalfEven y : ℚ) / 100 - y / 100| ≤ 1/100 := by
  have h := roundHalfEven_abs_le y
  rw [div_sub_div_same, abs_div, abs_of_pos (show (0:ℚ) < 100 by norm_num)]
  calc |(roundHalfEven y : ℚ) - y| / 100 ≤ (1/2) / 100 :=
        (div_le_div_right (by norm_num)).mpr h
    _ ≤ 1/100 := by norm_num

/-- Band B of the formatter loop: sizes below 1024. -/
theorem format_size_band0 (s : ℕ) (h0 : s ≠ 0) (hhi : s < 1024) :
    YouTubeDownloader.format_size (some s) =
      SizeFmt.fmt (roundHalfEven (100 * (s : ℚ))) ("B") := by
  have hq : (s : ℚ) < 1024 := by exact_mod_cast hhi
  simp only [YouTubeDownloader.format_size]
  rw [if_neg h0, if_pos hq]

/-- Band KB of the formatter loop. -/
theorem format_size_band1 (s : ℕ) (hlo : 1024 ≤ s) (hhi : s < 1048576) :
    YouTubeDownloader.format_size (some s) =
      SizeFmt.fmt (roundHalfEven (100 * ((s : ℚ) / 1024))) ("KB") := by
  have h0 : s ≠ 0 := by omega
  have hsl : (1024 : ℚ) ≤ (s : ℚ) := by exact_mod_cast hlo
  have hsh : (s : ℚ) < 1048576 := by exact_mod_cast hhi
  have hq1 : ¬ (s : ℚ) < 1024 := by rw [not_lt]; exact hsl
  have hq2 : (s : ℚ) / 1024 < 1024 := by
    rw [div_lt_iff (by norm_num : (0:ℚ) < 1024)]
    linarith
  simp only [YouTubeDownloader.format_size]
  rw [if_neg h0, if_neg hq1, if_pos hq2]

/-- Band MB of the formatter loop. -/
theorem format_size_band2 (s : ℕ) (hlo : 1048576 ≤ s) (hhi : s < 1073741824) :
    YouTubeDownloader.format_size (some s) =
      SizeFmt.fmt (roundHalfEven (100 * ((s : ℚ) / 1024 / 1024))) ("MB") := by
  have h0 : s ≠ 0 := by omega
  have hsl : (1048576 : ℚ) ≤ (s : ℚ) := by exact_mod_cast hlo
  have hsh : (s : ℚ) < 1073741824 := by exact_mod_cast hhi
  have hq1 : ¬ (s : ℚ) < 1024 := by rw [not_lt]; linarith
  have hq2 : ¬ (s : ℚ) / 1024 < 1024 := by
    rw [not_lt, le_div_iff (by norm_num : (0:ℚ) < 1024)]
    linarith
  have hq3 : (s : ℚ) / 1024 / 1024 < 1024 := by
    rw [div_lt_iff (by norm_num : (0:ℚ) < 1024),
      div_lt_iff (by norm_num : (0:ℚ) < 1024)]
    linarith
  simp only [YouTubeDownloader.format_size]
  rw [if_neg h0, if_neg hq1, if_neg hq2, if_pos hq3]

/-- Band GB of the formatter loop. -/
theorem format_size_band3 (s : ℕ) (hlo : 1073741824 ≤ s) (hhi : s < 1099511627776) :
    YouTubeDownloader.format_size (some s) =
      SizeFmt.fmt (roundHalfEven (100 * ((s : ℚ) / 1024 / 1024 / 1024))) ("GB") := by
  have h0 : s ≠ 0 := by omega
  have hsl : (1073741824 : ℚ) ≤ (s : ℚ) := by exact_mod_cast hlo
  have hsh : (s : ℚ) < 1099511627776 := by exact_mod_cast hhi
  have hq1 : ¬ (s : ℚ) < 1024 := by rw [not_lt]; linarith
  have hq2 : ¬ (s : ℚ) / 1024 < 1024 := by
    rw [not_lt, le_div_iff (by norm_num : (0:ℚ) < 1024)]
    linarith
  have hq3 : ¬ (s : ℚ) / 1024 / 1024 < 1024 := by
    rw [not_lt, le_div_iff (by norm_num : (0:ℚ) < 1024),
      le_div_iff (by norm_num : (0:ℚ) < 1024)]
    linarith
  have hq4 : (s : ℚ) / 1024 / 1024 / 1024 < 1024 := by
    rw [div_lt_iff (by norm_num : (0:ℚ) < 1024),
      div_lt_iff (by norm_num : (0:ℚ) < 1024),
      div_lt_iff (by norm_num : (0:ℚ) < 1024)]
    linarith
  simp only [YouTubeDownloader.format_size]
  rw [if_neg h0, if_neg hq1, if_neg hq2, if_neg hq3, if_pos hq4]

/-- Band TB: the loop exhausts all four units and falls through. -/
theorem format_size_band4 (s : ℕ) (hlo : 1099511627776 ≤ s) :
    YouTubeDownloader.format_size (some s) =
      SizeFmt.fmt (roundHalfEven (100 * ((s : ℚ) / 1024 / 1024 / 1024 / 1024)))
        ("TB") := by
  have h0 : s ≠ 0 := by omega
  have hsl : (1099511627776 : ℚ) ≤ (s : ℚ) := by exact_mod_cast hlo
  have hq1 : ¬ (s : ℚ) < 1024 := by rw [not_lt]; linarith
  have hq2 : ¬ (s : ℚ) / 1024 < 1024 := by
    rw [not_lt, le_div_iff (by norm_num : (0:ℚ) < 1024)]
    linarith
  have hq3 : ¬ (s : ℚ) / 1024 / 1024 < 1024 := by
    rw [not_lt, le_div_iff (by norm_num : (0:ℚ) < 1024),
      le_div_iff (by norm_num : (0:ℚ) < 1024)]
    linarith
  have hq4 : ¬ (s : ℚ) / 1024 / 1024 / 1024 < 1024 := by
    rw [not_lt, le_div_iff (by norm_num : (0:ℚ) < 1024),
      le_div_iff (by norm_num : (0:ℚ) < 1024),
      le_div_iff (by norm_num : (0:ℚ) < 1024)]
    linarith
  simp only [YouTubeDownloader.format_size]
  rw [if_neg h0, if_neg hq1, if_neg hq2, if_neg hq3, if_neg hq4]

/-- C7 counterexample: an input of zero bytes — which is a byte size `s ≥ 0`
and is not missing/absent — yields the placeholder, not a formatted value in
the B band, because `if not size_bytes` is also true for `0`.  (For the
absent size the placeholder is indeed returned.) -/
theorem c7_counterexample :
    YouTubeDownloader.format_size (some 0) = SizeFmt.na ∧
    YouTubeDownloader.format_size none = SizeFmt.na :=
  ⟨rfl, rfl⟩

/-- C7 amended: for every strictly positive byte size the formatter renders
in the correct base-1024 unit band (k divisions land in `unitAt k`), with a
two-fractional-digit value within 1/100 of `s / 1024 ^ k`; the placeholder
is returned exactly for a missing size or a size of zero. -/
theorem c7_size_formatter_band (s k : ℕ) (h0 : 0 < s) (hk : k ≤ 4)
    (hlo : 1024 ^ k ≤ s) (hhi : k < 4 → s < 1024 ^ (k + 1)) :
    ∃ c : ℤ, YouTubeDownloader.format_size (some s) = SizeFmt.fmt c (unitAt k) ∧
      |(c : ℚ) / 100 - (s : ℚ) / 1024 ^ k| ≤ 1/100 := by
  interval_cases k
  · have hb := format_size_band0 s (by omega) (by have h := hhi (by norm_num); norm_num at h; exact h)
    refine ⟨_, hb, ?_⟩
    have he : (s : ℚ) / 1024 ^ 0 = (100 * (s : ℚ)) / 100 := by ring
    rw [he]
    exact roundHalfEven_div_bound _
  · have h1 := hhi (by norm_num)
    norm_num at hlo h1
    refine ⟨_, format_size_band1 s hlo h1, ?_⟩
    have he : (s : ℚ) / 1024 ^ 1 = (100 * ((s : ℚ) / 1024)) / 100 := by ring
    rw [he]
    exact roundHalfEven_div_bound _
  · have h1 := hhi (by norm_num)
    norm_num at hlo h1
    refine ⟨_, format_size_band2 s hlo h1, ?_⟩
    have he : (s : ℚ) / 1024 ^ 2 = (100 * ((s : ℚ) / 1024 / 1024)) / 100 := by ring
    rw [he]
    exact roundHalfEven_div_bound _
  · have h1 := hhi (by norm_num)
    norm_num at hlo h1
    refine ⟨_, format_size_band3 s hlo h1, ?_⟩
    have he : (s : ℚ) / 1024 ^ 3 = (100 * ((s : ℚ) / 1024 / 1024 / 1024)) / 100 := by
      ring
    rw [he]
    exact roundHalfEven_div_bound _
  · norm_num at hlo
    refine ⟨_, format_size_band4 s hlo, ?_⟩
    have he : (s : ℚ) / 1024 ^ 4 = (100 * ((s : ℚ) / 1024 / 1024 / 1024 / 1024)) / 100 := by
      ring
    rw [he]
    exact roundHalfEven_div_bound _

/-- C7 witness: 1048576 bytes formats as value 1.00 (100 hundredths) in the
MB band, and the band theorem applies to it with k = 2. -/
theorem c7_witness :
    YouTubeDownloader.format_size (some 1048576) = SizeFmt.fmt 100 ("MB") ∧
    (∃ c : ℤ, YouTubeDownloader.format_size (some 1048576) =
        SizeFmt.fmt c (unitAt 2) ∧
      |(c : ℚ) / 100 - (1048576 : ℚ) / 1024 ^ 2| ≤ 1/100) :=
  ⟨by
    have h1 := format_size_band2 1048576 (by norm_num) (by norm_num)
    have h2 : (100 : ℚ) * (((1048576 : ℕ) : ℚ) / 1024 / 1024) = 100 := by norm_num
    have hfl : ⌊(100 : ℚ)⌋ = 100 := by norm_num
    have h3 : roundHalfEven (100 : ℚ) = 100 := by
      unfold roundHalfEven
      rw [hfl]
      norm_num
    rw [h1, h2, h3],
  c7_size_formatter_band 1048576 2 (by norm_num) (by norm_num)
    (by norm_num) (fun _ => by norm_num)⟩
